import Mathlib

/-!
Verification of the Gulf Air mobile front-end (Expo/React Native client).

The development shallowly embeds the client-side logic that the claims are
about: the check-in window logic, date normalization and formatting of
`app/my-trips.jsx`, the booking-list filtering, the cancel / reschedule /
check-in handlers, the booking-form validation of `app/book.jsx`, and the
shared axios client of `utils/api.js` (timeout, interceptors, token
lifecycle).  JavaScript strings are Lean `String`s (manipulated through
their character lists, structurally), JavaScript numbers holding epoch
milliseconds are `Int`, fractional hour quantities are `ℚ`, and absent /
`null` / `undefined` values are `Option`.
-/

namespace GulfAir

/-! ## JavaScript string primitives

Models of the host string operations the client uses: `String.prototype`
whitespace trimming, substring containment (`String.prototype.includes`),
and regular-expression tests, all written structurally over `List Char`. -/

/-- Model of JavaScript `String.prototype.trim`: drop leading and trailing
whitespace. -/
def jsTrim (s : String) : String :=
  String.mk (((s.data.dropWhile Char.isWhitespace).reverse.dropWhile
    Char.isWhitespace).reverse)

/-- Substring search on character lists: `true` iff `sub` occurs
contiguously inside `l`.  Model of JavaScript `String.prototype.includes`. -/
def listContainsSub (l sub : List Char) : Bool :=
  match l with
  | [] => sub.isEmpty
  | _ :: t => sub.isPrefixOf l || listContainsSub t sub

/-- Model of JavaScript `haystack.includes(needle)`. -/
def jsIncludes (haystack needle : String) : Bool :=
  listContainsSub haystack.data needle.data

/-- Character class `[^\s@]` of the email regular expression in
`app/book.jsx`: any character that is neither whitespace nor `@`. -/
def emailAtomChar (c : Char) : Bool :=
  !c.isWhitespace && !(c = '@')

/-- `true` iff the list contains a `.` that is neither its first nor its
last element. -/
def hasInnerDot (l : List Char) : Bool :=
  ((l.drop 1).dropLast).contains '.'

/-- Model of the test of `/^[^\s@]+@[^\s@]+\.[^\s@]+$/` from
`app/book.jsx`.  Because `[^\s@]` excludes `@`, a matching string has
exactly one `@`; the part before it is a nonempty run of `[^\s@]`
characters, and the part after it is a nonempty run of `[^\s@]`
characters containing a `.` with at least one character on each side
(the dot split by the regex; surrounding runs may themselves contain
dots). -/
def emailRegexTest (s : String) : Bool :=
  match s.data.splitOn '@' with
  | [before, after] =>
      !before.isEmpty && before.all emailAtomChar &&
      !after.isEmpty && after.all emailAtomChar &&
      hasInnerDot after
  | _ => false

/-! ## Sub-millisecond normalization

`app/my-trips.jsx` normalizes timestamps with
`String(dateString).replace(/\.(\d{3})\d+$/, '.$1')` before parsing.  The
regular expression matches only when the string ends in a literal `.`
followed by at least four digits running to the very end of the string;
the replacement keeps the first three of those digits.  Equivalently: if
the maximal trailing run of digit characters has length `k ≥ 4` and is
immediately preceded by `.`, the last `k - 3` characters are dropped;
otherwise the string is unchanged. -/

/-- Normalization on the reversed character list: if the list starts with
`k ≥ 4` digits followed immediately by `.`, drop the first `k - 3`
characters. -/
def revSubMsTrunc (r : List Char) : List Char :=
  let k := (r.takeWhile Char.isDigit).length
  if 4 ≤ k ∧ r.getD k 'x' = '.' then r.drop (k - 3) else r

/-- The sub-millisecond truncation written inline in `formatDate`
(`app/my-trips.jsx`): `.replace(/\.(\d{3})\d+$/, '.$1')`. -/
def normalizeSubMsFormatDate (s : String) : String :=
  String.mk (revSubMsTrunc s.data.reverse).reverse

/-- The sub-millisecond truncation written inline in `canCheckIn`
(`app/my-trips.jsx`): `.replace(/\.(\d{3})\d+$/, '.$1')`. -/
def normalizeSubMsCanCheckIn (s : String) : String :=
  String.mk (revSubMsTrunc s.data.reverse).reverse

/-- The sub-millisecond truncation written inline in `getCheckInMessage`
(`app/my-trips.jsx`): `.replace(/\.(\d{3})\d+$/, '.$1')`. -/
def normalizeSubMsMessage (s : String) : String :=
  String.mk (revSubMsTrunc s.data.reverse).reverse

/-- Model of the date-only shape test `/^\d{4}-\d{2}-\d{2}$/` from
`formatDate` in `app/my-trips.jsx`. -/
def isDateOnlyShape (l : List Char) : Bool :=
  match l with
  | [y1, y2, y3, y4, a, m1, m2, b, d1, d2] =>
      y1.isDigit && y2.isDigit && y3.isDigit && y4.isDigit && a = '-' &&
      m1.isDigit && m2.isDigit && b = '-' && d1.isDigit && d2.isDigit
  | _ => false

/-! ## The host `Date` object

Modelled from the spec: the backend is out of scope and the `Date`
built-in belongs to the JavaScript host, so its parser is embedded
following ECMA-262's Date Time String Format
(`YYYY-MM-DD[THH:mm[:ss[.sss]][Z|±HH:MM]]`), the only format the host is
guaranteed to accept; the spec's requirement that clients "must tolerate
sub-millisecond fractional seconds and date-only strings … by normalizing
before parsing" presumes exactly this contract, so strings outside the
grammar (for example more than three fractional-second digits) are
modelled as unparseable (JavaScript `Invalid Date`).  A date-time without
an offset designator denotes local wall-clock time; a date-only string
denotes UTC midnight.  The model fixes the client device's local time
zone at UTC (offset 0); every claim below is insensitive to this choice.
The rarely used `T24:00` end-of-day form is omitted. -/

/-- Broken-down result of parsing a conforming date-time string:
calendar fields plus the time-zone offset in minutes (`none` when the
string had no offset designator and therefore denotes local time). -/
structure JSDate where
  year : Nat
  month : Nat
  day : Nat
  hour : Nat
  minute : Nat
  second : Nat
  millis : Nat
  tzOffsetMinutes : Option Int
  deriving Repr, DecidableEq

/-- Numeric value of a digit character. -/
def charDigitVal (c : Char) : Nat := c.toNat - 48

/-- Number of days in a month of the proleptic Gregorian calendar. -/
def daysInMonth (y m : Nat) : Nat :=
  if m = 2 then
    if (y % 4 = 0 ∧ y % 100 ≠ 0) ∨ y % 400 = 0 then 29 else 28
  else if m = 4 ∨ m = 6 ∨ m = 9 ∨ m = 11 then 30
  else 31

/-- Days from 1970-01-01 to the given proleptic Gregorian date
(Howard Hinnant's `days_from_civil` algorithm). -/
def civilToDays (y m d : Nat) : Int :=
  let yy : Int := (y : Int) - (if m ≤ 2 then 1 else 0)
  let era : Int := Int.fdiv yy 400
  let yoe : Int := yy - era * 400
  let mp : Int := (m : Int) + (if 2 < m then -3 else 9)
  let doy : Int := Int.fdiv (153 * mp + 2) 5 + (d : Int) - 1
  let doe : Int := yoe * 365 + Int.fdiv yoe 4 - Int.fdiv yoe 100 + doy
  era * 146097 + doe - 719468

/-- Proleptic Gregorian date of a day count from 1970-01-01
(Howard Hinnant's `civil_from_days` algorithm); returns
(year, month, day). -/
def daysToCivil (z : Int) : Int × Nat × Nat :=
  let zz : Int := z + 719468
  let era : Int := Int.fdiv zz 146097
  let doe : Int := zz - era * 146097
  let yoe : Int :=
    Int.fdiv (doe - Int.fdiv doe 1460 + Int.fdiv doe 36524 - Int.fdiv doe 146096) 365
  let y : Int := yoe + era * 400
  let doy : Int := doe - (365 * yoe + Int.fdiv yoe 4 - Int.fdiv yoe 100)
  let mp : Int := Int.fdiv (5 * doy + 2) 153
  let d : Int := doy - Int.fdiv (153 * mp + 2) 5 + 1
  let m : Int := mp + (if mp < 10 then 3 else -9)
  (y + (if m ≤ 2 then 1 else 0), m.toNat, d.toNat)

/-- Parse an optional trailing time-zone designator: empty (local time),
`Z`, or `±HH:MM`. -/
def parseTzPart (l : List Char) : Option (Option Int) :=
  match l with
  | [] => some none
  | ['Z'] => some (some 0)
  | ['+', h1, h2, ':', m1, m2] =>
      if h1.isDigit ∧ h2.isDigit ∧ m1.isDigit ∧ m2.isDigit then
        let h := 10 * charDigitVal h1 + charDigitVal h2
        let m := 10 * charDigitVal m1 + charDigitVal m2
        if h ≤ 23 ∧ m ≤ 59 then some (some ((h * 60 + m : Nat) : Int)) else none
      else none
  | ['-', h1, h2, ':', m1, m2] =>
      if h1.isDigit ∧ h2.isDigit ∧ m1.isDigit ∧ m2.isDigit then
        let h := 10 * charDigitVal h1 + charDigitVal h2
        let m := 10 * charDigitVal m1 + charDigitVal m2
        if h ≤ 23 ∧ m ≤ 59 then some (some (-((h * 60 + m : Nat) : Int))) else none
      else none
  | _ => none

/-- Parse the part after seconds: optional `.sss` fraction, then the
optional time-zone designator. -/
def parseFracTzPart (l : List Char) : Option (Nat × Option Int) :=
  match l with
  | '.' :: f1 :: f2 :: f3 :: rest =>
      if f1.isDigit ∧ f2.isDigit ∧ f3.isDigit then
        match parseTzPart rest with
        | some tz =>
            some (100 * charDigitVal f1 + 10 * charDigitVal f2 + charDigitVal f3, tz)
        | none => none
      else none
  | _ =>
      match parseTzPart l with
      | some tz => some (0, tz)
      | none => none

/-- Parse the part after minutes: optional `:ss` with optional fraction,
then the optional time-zone designator. -/
def parseSecPart (l : List Char) : Option (Nat × Nat × Option Int) :=
  match l with
  | ':' :: s1 :: s2 :: rest =>
      if s1.isDigit ∧ s2.isDigit then
        let s := 10 * charDigitVal s1 + charDigitVal s2
        if s ≤ 59 then
          match parseFracTzPart rest with
          | some (ms, tz) => some (s, ms, tz)
          | none => none
        else none
      else none
  | _ =>
      match parseTzPart l with
      | some tz => some (0, 0, tz)
      | none => none

/-- Parse the part after the calendar date: either nothing (date-only,
which ECMA-262 interprets as UTC midnight) or `THH:mm` followed by the
optional seconds, fraction and offset parts. -/
def parseTimePart (y m d : Nat) (l : List Char) : Option JSDate :=
  match l with
  | [] => some ⟨y, m, d, 0, 0, 0, 0, some 0⟩
  | 'T' :: h1 :: h2 :: ':' :: mi1 :: mi2 :: rest =>
      if h1.isDigit ∧ h2.isDigit ∧ mi1.isDigit ∧ mi2.isDigit then
        let h := 10 * charDigitVal h1 + charDigitVal h2
        let mi := 10 * charDigitVal mi1 + charDigitVal mi2
        if h ≤ 23 ∧ mi ≤ 59 then
          match parseSecPart rest with
          | some (s, ms, tz) => some ⟨y, m, d, h, mi, s, ms, tz⟩
          | none => none
        else none
      else none
  | _ => none

/-- Model of `new Date(string)` on a conforming ECMA-262 date-time
string: `none` models an `Invalid Date`. -/
def jsParseDate (l : List Char) : Option JSDate :=
  match l with
  | y1 :: y2 :: y3 :: y4 :: '-' :: m1 :: m2 :: '-' :: d1 :: d2 :: rest =>
      if y1.isDigit ∧ y2.isDigit ∧ y3.isDigit ∧ y4.isDigit ∧
         m1.isDigit ∧ m2.isDigit ∧ d1.isDigit ∧ d2.isDigit then
        let y := 1000 * charDigitVal y1 + 100 * charDigitVal y2 +
                 10 * charDigitVal y3 + charDigitVal y4
        let m := 10 * charDigitVal m1 + charDigitVal m2
        let d := 10 * charDigitVal d1 + charDigitVal d2
        if 1 ≤ m ∧ m ≤ 12 ∧ 1 ≤ d ∧ d ≤ daysInMonth y m then
          parseTimePart y m d rest
        else none
      else none
  | _ => none

/-- Epoch milliseconds of a parsed date (`Date.prototype.getTime`), with
the model's local offset (UTC, 0 minutes) applied to offset-less local
times. -/
def epochMs (dt : JSDate) : Int :=
  civilToDays dt.year dt.month dt.day * 86400000 +
    (((dt.hour * 60 + dt.minute) * 60 + dt.second) * 1000 + dt.millis : Nat) -
    (dt.tzOffsetMinutes.getD 0) * 60000

/-- Local calendar fields of a parsed date, as read by
`Date.prototype.getDate` / `getMonth`, with the model's local time zone
fixed at UTC.  A date-time parsed without an offset designator denotes
local wall-clock time, so its displayed fields are its parsed fields; a
date-time carrying an offset is converted (offsets are whole minutes, so
the day shift is determined by the minutes of day). -/
def localCivil (dt : JSDate) : Int × Nat × Nat :=
  match dt.tzOffsetMinutes with
  | none => ((dt.year : Int), dt.month, dt.day)
  | some o =>
      let totalMin : Int := ((dt.hour * 60 + dt.minute : Nat) : Int) - o
      daysToCivil (civilToDays dt.year dt.month dt.day + Int.fdiv totalMin 1440)

/-- `Date.prototype.getDate` under the model's UTC locale. -/
def jsGetDate (dt : JSDate) : Nat := (localCivil dt).2.2

/-- `Date.prototype.getMonth` under the model's UTC locale (0-based). -/
def jsGetMonth (dt : JSDate) : Nat := (localCivil dt).2.1 - 1

/-! ## `formatDate`, `canCheckIn` and `getCheckInMessage` (`app/my-trips.jsx`) -/

/-- The month-name table of `formatDate` in `app/my-trips.jsx`. -/
def monthNames : List String :=
  ["JAN", "FEB", "MAR", "APR", "MAY", "JUN",
   "JUL", "AUG", "SEP", "OCT", "NOV", "DEC"]

/-- `formatDate` from `app/my-trips.jsx`: returns `"N/A"` for a missing
or falsy input, normalizes sub-millisecond digits, widens a date-only
string to local noon, parses, and renders `"day MONTH"`.  The input is
`Option String` because the call sites pass `booking.flight?.departure_time`,
which may be `undefined`; the `Date`-instance branch of the source is
unreachable from those call sites and is not modelled. -/
def formatDate (dateString : Option String) : String :=
  match dateString with
  | none => "N/A"
  | some s =>
      if s = "" then "N/A"
      else
        let input := normalizeSubMsFormatDate s
        let input2 := if isDateOnlyShape input.data then input ++ "T12:00:00" else input
        match jsParseDate input2.data with
        | none => "N/A"
        | some dt => toString (jsGetDate dt) ++ " " ++ monthNames.getD (jsGetMonth dt) ""

/-- `canCheckIn` from `app/my-trips.jsx`.  The JS computes
`hoursUntilDeparture = (departure - now) / 3600000` in floating point and
returns `hoursUntilDeparture <= 24 && hoursUntilDeparture > 0`; both
comparisons are exact on the millisecond difference (86400000 / 3600000 is
exactly 24), so they are modelled as integer comparisons on the
difference.  An unparsable departure gives `NaN`, whose comparisons are
both false. -/
def canCheckIn (nowMs : Int) (departureTime : Option String) (bookingStatus : String) : Bool :=
  if bookingStatus ≠ "confirmed" then false
  else
    match departureTime with
    | none => false
    | some s =>
        match jsParseDate (normalizeSubMsCanCheckIn s).data with
        | none => false
        | some dt =>
            decide (epochMs dt - nowMs ≤ 24 * 3600000 ∧ 0 < epochMs dt - nowMs)

/-- Ceiling division for a positive divisor, via floor division:
`Math.ceil(a / b)`. -/
def intCeilDiv (a b : Int) : Int := -(Int.fdiv (-a) b)

/-- `getCheckInMessage` from `app/my-trips.jsx`.  When the departure time
fails to parse, `hoursUntilDeparture` is `NaN`, so both the `<= 0` and
`> 24` guards are false and control falls through to
`'You can check-in now!'`.  In the too-early branch,
`daysUntilCheckIn = Math.floor((h - 24) / 24)` and the hour count is
`Math.ceil(h - 24)`, both exact on millisecond integers. -/
def getCheckInMessage (nowMs : Int) (departureTime : Option String) (bookingStatus : String) : String :=
  if bookingStatus = "checked_in" then "You have already checked in for this flight."
  else if bookingStatus = "cancelled" then "This booking has been cancelled."
  else
    let parsed := match departureTime with
      | none => none
      | some s => jsParseDate (normalizeSubMsMessage s).data
    match parsed with
    | none => "You can check-in now!"
    | some dt =>
        let diff := epochMs dt - nowMs
        if diff ≤ 0 then "This flight has already departed."
        else if 24 * 3600000 < diff then
          let daysUntilCheckIn := Int.fdiv (diff - 24 * 3600000) 86400000
          if 0 < daysUntilCheckIn then
            "Check-in opens in " ++ (toString daysUntilCheckIn ++ (" day" ++
              ((if 1 < daysUntilCheckIn then "s" else "") ++ " (24 hours before departure).")))
          else
            "Check-in opens in " ++
              (toString (intCeilDiv (diff - 24 * 3600000) 3600000) ++ " hours.")
        else "You can check-in now!"

/-- The quantity named in the spec: hours from `now` until the departure
instant, as an exact rational. -/
def hoursUntilDeparture (nowMs depMs : Int) : ℚ :=
  ((depMs - nowMs : Int) : ℚ) / 3600000

/-- Decimal digit character of `n % 10`. -/
def digitChar (n : Nat) : Char := Char.ofNat (48 + n % 10)

/-- Written from the claim: the date-only string `YYYY-MM-DD` for a
calendar date (zero-padded decimal rendering). -/
def dateOnlyString (y m d : Nat) : String :=
  String.mk [digitChar (y / 1000), digitChar (y / 100), digitChar (y / 10), digitChar y,
    '-', digitChar (m / 10), digitChar m, '-', digitChar (d / 10), digitChar d]

/-! ## Booking list display (`loadUserBookings`, `app/my-trips.jsx`) -/

/-- Flight entity as delivered by the backend (fields used by the
client); `departure_time` is optional because the client guards it with
optional chaining. -/
structure Flight where
  id : Int
  flight_number : String
  departure_airport : String
  arrival_airport : String
  departure_time : Option String
  deriving Repr, DecidableEq

/-- Booking entity as delivered by the backend (fields used by the
client). -/
structure Booking where
  id : Int
  booking_reference : String
  booking_status : String
  seat_class : String
  seat_number : String
  passenger_name : String
  total_price : ℚ
  flight : Option Flight
  deriving Repr, DecidableEq

/-- The airport-code table of `getDestinationName` in
`app/my-trips.jsx`. -/
def airportMap : List (String × String) :=
  [("BAH", "Bahrain"), ("DXB", "Dubai"), ("DOH", "Doha"), ("KWI", "Kuwait"),
   ("RUH", "Riyadh"), ("JED", "Jeddah"), ("CAI", "Cairo"), ("BEY", "Beirut"),
   ("AMM", "Amman"), ("LHR", "London"), ("CDG", "Paris"), ("FRA", "Frankfurt"),
   ("MAD", "Madrid"), ("FCO", "Rome"), ("ATH", "Athens"), ("BOM", "Mumbai"),
   ("DEL", "Delhi"), ("BKK", "Bangkok"), ("KUL", "Kuala Lumpur"),
   ("SIN", "Singapore"), ("HKG", "Hong Kong"), ("NBO", "Nairobi"),
   ("JNB", "Johannesburg"), ("ADD", "Addis Ababa")]

/-- `getDestinationName` from `app/my-trips.jsx`: map an airport code to
a city name, falling back to the code itself. -/
def getDestinationName (airportCode : String) : String :=
  match airportMap.lookup airportCode with
  | some city => city
  | none => airportCode

/-- One card of the My Trips screen: the object built inside the `.map`
of `loadUserBookings` (the static image asset is omitted). -/
structure TripCard where
  id : String
  destination : String
  date : String
  bookingReference : String
  cardCanCheckIn : Bool
  checkInMessage : String
  bookingStatus : String
  seatClass : String
  seatNumber : String
  passengerName : String
  totalPrice : ℚ
  flight : Option Flight
  deriving Repr, DecidableEq

/-- The element-wise transformation applied inside `loadUserBookings`
(`app/my-trips.jsx`).  `booking.flight?.arrival_airport || 'Unknown'`
falls back on a missing flight or a falsy (empty) code. -/
def transformBooking (nowMs : Int) (b : Booking) : TripCard :=
  let departureTime := b.flight.bind Flight.departure_time
  let arrivalCode := match b.flight with
    | none => "Unknown"
    | some f => if f.arrival_airport = "" then "Unknown" else f.arrival_airport
  { id := toString b.id
    destination := getDestinationName arrivalCode
    date := formatDate departureTime
    bookingReference := b.booking_reference
    cardCanCheckIn := canCheckIn nowMs departureTime b.booking_status
    checkInMessage := getCheckInMessage nowMs departureTime b.booking_status
    bookingStatus := b.booking_status
    seatClass := b.seat_class
    seatNumber := b.seat_number
    passengerName := b.passenger_name
    totalPrice := b.total_price
    flight := b.flight }

/-- The display pipeline of `loadUserBookings` (`app/my-trips.jsx`) after
the full booking list has been received: client-side filter of cancelled
bookings followed by the element-wise transformation. -/
def loadUserBookings (nowMs : Int) (userBookings : List Booking) : List TripCard :=
  (userBookings.filter (fun b => b.booking_status != "cancelled")).map (transformBooking nowMs)

/-- Written from the claim: keep each booking whose status is not
`cancelled`, in the original order, transformed element-wise. -/
def activeDisplaySpec (nowMs : Int) : List Booking → List TripCard
  | [] => []
  | b :: t =>
      if b.booking_status = "cancelled" then activeDisplaySpec nowMs t
      else transformBooking nowMs b :: activeDisplaySpec nowMs t

/-! ## Check-in result handling (`handleCheckIn`, `app/my-trips.jsx`) -/

/-- The `loyalty_rewards` object of the check-in response body. -/
structure LoyaltyRewards where
  miles_earned : Int
  points_earned : Int
  flight_distance : Int
  seat_class : String
  loyalty_tier : String
  total_miles : Int
  total_points : Int
  deriving Repr, DecidableEq

/-- The `tier_upgrade` object of the check-in response body. -/
structure TierUpgrade where
  upgraded : Bool
  old_tier : String
  new_tier : String
  next_tier_threshold : Option Int
  deriving Repr, DecidableEq

/-- A possible nested `data` object inside the response body (the
check-in contract of the spec does not define one; `handleCheckIn`
nevertheless reads `response.data`). -/
structure CheckinNested where
  loyalty_rewards : Option LoyaltyRewards
  tier_upgrade : Option TierUpgrade
  deriving Repr, DecidableEq

/-- The check-in response as `handleCheckIn` receives it: the response
interceptor of `utils/api.js` returns `response.data`, so this value IS
the HTTP body, with `loyalty_rewards` and `tier_upgrade` as top-level
fields per the documented contract, and `data` present only if the body
itself had such a field. -/
structure CheckinResponse where
  loyalty_rewards : Option LoyaltyRewards
  tier_upgrade : Option TierUpgrade
  data : Option CheckinNested
  deriving Repr, DecidableEq

/-- An `Alert.alert(title, message)` call. -/
structure AlertBox where
  title : String
  message : String
  deriving Repr, DecidableEq

/-- `charAt(0).toUpperCase() + slice(1)` from the rewards message. -/
def capitalizeFirst (s : String) : String :=
  match s.data with
  | [] => ""
  | c :: t => String.mk (c.toUpper :: t)

/-- The generic fallback alert of `handleCheckIn`. -/
def genericCheckinAlert : AlertBox := ⟨"Success", "Check-in completed successfully!"⟩

/-- The success branch of `handleCheckIn` (`app/my-trips.jsx`): the alert
it shows for a given response.  The guard is
`if (response.data && response.data.loyalty_rewards)`; only when both are
truthy is the rewards summary built (from `response.data.loyalty_rewards`
and `response.data.tier_upgrade`), otherwise the generic success alert is
shown.  Integer-valued JS numbers render as their decimal digits. -/
def handleCheckIn (response : CheckinResponse) : AlertBox :=
  match response.data with
  | none => genericCheckinAlert
  | some d =>
      match d.loyalty_rewards with
      | none => genericCheckinAlert
      | some rewards =>
          let baseMessage :=
            "You've earned " ++ toString rewards.miles_earned ++ " miles and " ++
              toString rewards.points_earned ++ " points!\n\n" ++
            "Flight: " ++ toString rewards.flight_distance ++ " miles\n" ++
            "Seat Class: " ++ capitalizeFirst rewards.seat_class ++ "\n" ++
            "Loyalty Tier: " ++ rewards.loyalty_tier ++ "\n\n" ++
            "Total Miles: " ++ toString rewards.total_miles ++ "\n" ++
            "Total Points: " ++ toString rewards.total_points
          match d.tier_upgrade with
          | none => ⟨"Check-in Successful! 🎉", baseMessage⟩
          | some tierUpgrade =>
              if tierUpgrade.upgraded then
                ⟨"🎉 TIER UPGRADE! 🎉",
                 "CONGRATULATIONS! You've been upgraded to " ++ tierUpgrade.new_tier ++
                   " tier!\n\n" ++
                 "Previous Tier: " ++ tierUpgrade.old_tier ++ "\n" ++
                 "New Tier: " ++ tierUpgrade.new_tier ++ "\n\n" ++
                 "You earned " ++ toString rewards.miles_earned ++ " miles and " ++
                   toString rewards.points_earned ++ " points!\n" ++
                 "Total Miles: " ++ toString rewards.total_miles ++ "\n\n" ++
                 "Enjoy your new " ++ tierUpgrade.new_tier ++ " benefits!"⟩
              else
                match tierUpgrade.next_tier_threshold with
                | some threshold =>
                    if threshold ≠ 0 then
                      ⟨"Check-in Successful! 🎉",
                       baseMessage ++ "\n\nPoints to next tier: " ++
                         toString (threshold - rewards.total_points)⟩
                    else ⟨"Check-in Successful! 🎉", baseMessage⟩
                | none => ⟨"Check-in Successful! 🎉", baseMessage⟩

/-! ## Cancellation (`handleCancelBooking`, `app/book.jsx` cancel screen) -/

/-- Observable outcome of one run of `handleCancelBooking`: whether the
DELETE request was sent, and the alert shown. -/
structure CancelOutcome where
  requestSent : Bool
  alertTitle : String
  alertMessage : String
  deriving Repr, DecidableEq

/-- `handleCancelBooking` from the cancel screen in `app/book.jsx`.
If the loaded booking is already `cancelled`, an `Already Cancelled`
alert is shown and no request is made; otherwise
`bookingsAPI.cancelBooking` is awaited and its outcome (`server`)
determines the alert, with server messages containing
`'already cancelled'` reported as `Already Cancelled`. -/
def handleCancelBooking (bookingStatus : String) (server : Except String Unit) : CancelOutcome :=
  if bookingStatus = "cancelled" then
    ⟨false, "Already Cancelled", "This booking has already been cancelled."⟩
  else
    match server with
    | Except.ok _ =>
        ⟨true, "Booking Cancelled",
         "Your booking has been cancelled successfully. Refund will be processed within 5-7 business days."⟩
    | Except.error msg =>
        if jsIncludes msg "already cancelled" then
          ⟨true, "Already Cancelled", "This booking has already been cancelled."⟩
        else if jsIncludes msg "not found" then
          ⟨true, "Error", "Booking not found. It may have already been cancelled."⟩
        else if jsIncludes msg "cannot be cancelled" then
          ⟨true, "Error", "This booking cannot be cancelled at this time."⟩
        else ⟨true, "Error", "Failed to cancel booking. Please try again."⟩

/-! ## Reschedule (`utils/api.js` and the manage-booking screen) -/

/-- JSON body of the reschedule POST.  The wire contract allows optional
`seat_class` / `seat_number` fields; `none` models an absent field. -/
structure RescheduleBody where
  new_flight_id : Int
  seat_class : Option String
  seat_number : Option String
  deriving Repr, DecidableEq

/-- A POST request issued through the axios client. -/
structure ReschedulePost where
  url : String
  body : RescheduleBody
  deriving Repr, DecidableEq

/-- `bookingsAPI.rescheduleBooking` from `utils/api.js`: its parameter
list is `(bookingId, newFlightId)` and the body it posts is
`{ new_flight_id: newFlightId }` — no seat fields.  JavaScript discards
any extra arguments supplied by callers. -/
def rescheduleBooking (bookingId : Int) (newFlightId : Int) : ReschedulePost :=
  { url := "/api/bookings/" ++ toString bookingId ++ "/reschedule"
    body := { new_flight_id := newFlightId, seat_class := none, seat_number := none } }

/-- `handleRescheduleBooking` from the manage-booking screen: with no
flight selected it only alerts; otherwise it calls
`bookingsAPI.rescheduleBooking(booking.id, selectedNewFlight.id,
selectedSeatClass || booking.seat_class, selectedSeatNumber ||
booking.seat_number)` — the façade declares no third or fourth
parameter, so the seat arguments never reach the HTTP body.  Returns the
request sent, if any. -/
def handleRescheduleBooking (booking : Booking) (selectedNewFlight : Option Flight)
    (selectedSeatClass selectedSeatNumber : Option String) : Option ReschedulePost :=
  match selectedNewFlight with
  | none => none
  | some f =>
      let _requestedSeatClass := (selectedSeatClass.getD booking.seat_class)
      let _requestedSeatNumber := (selectedSeatNumber.getD booking.seat_number)
      some (rescheduleBooking booking.id f.id)

/-! ## Booking creation (`app/book.jsx`) -/

/-- Data assembled by the confirm-booking button and passed to
`createBooking`. -/
structure BookingFormData where
  passengerName : String
  passengerEmail : String
  passportNumber : String
  seatNumber : String
  deriving Repr, DecidableEq

/-- The flight fields `createBooking` reads from the selected flight. -/
structure FlightUI where
  id : Int
  economyPrice : ℚ
  businessPrice : ℚ
  deriving Repr, DecidableEq

/-- The `onPress` handler of the confirm-booking button
(`app/book.jsx`): each validation failure alerts and returns without
calling `createBooking`; on success `createBooking` receives the trimmed
fields and the selected seat.  `!selectedSeat` is a JS truthiness test,
so a missing seat and an empty-string seat both fail.  The email regex is
tested against the untrimmed `passengerEmail`. -/
def confirmBookingPress (passengerName passengerEmail passportNumber : String)
    (selectedSeat : Option String) : Option BookingFormData :=
  if jsTrim passengerName = "" then none
  else if jsTrim passengerEmail = "" then none
  else if jsTrim passportNumber = "" then none
  else
    match selectedSeat with
    | none => none
    | some seat =>
        if seat = "" then none
        else if !emailRegexTest passengerEmail then none
        else some ⟨jsTrim passengerName, jsTrim passengerEmail, jsTrim passportNumber, seat⟩

/-- The POST body built by `createBooking` (`app/book.jsx`). -/
structure CreateBookingBody where
  flight_id : Int
  passenger_name : String
  passenger_email : String
  passport_number : String
  seat_class : String
  seat_number : String
  total_price : ℚ
  deriving Repr, DecidableEq

/-- A create-booking request issued through the axios client. -/
structure CreateBookingPost where
  url : String
  body : CreateBookingBody
  deriving Repr, DecidableEq

/-- `createBooking` from `app/book.jsx`: with no (truthy) auth token it
alerts and redirects to login without a request; otherwise it maps the
UI seat class (`falcon_gold` ↦ `business`, else `economy`), picks the
matching price from the selected flight, and posts the payload to
`/api/bookings`. -/
def createBooking (token : Option String) (seatClass : String) (selectedFlight : FlightUI)
    (bookingData : BookingFormData) : Option CreateBookingPost :=
  match token with
  | none => none
  | some t =>
      if t = "" then none
      else
        let backendSeatClass := if seatClass = "falcon_gold" then "business" else "economy"
        let price := if backendSeatClass = "economy" then selectedFlight.economyPrice
                     else selectedFlight.businessPrice
        some { url := "/api/bookings"
               body := { flight_id := selectedFlight.id
                         passenger_name := bookingData.passengerName
                         passenger_email := bookingData.passengerEmail
                         passport_number := bookingData.passportNumber
                         seat_class := backendSeatClass
                         seat_number := bookingData.seatNumber
                         total_price := price } }

/-! ## Shared axios client (`utils/api.js`) -/

/-- The configuration passed to `axios.create` in `utils/api.js`. -/
structure AxiosConfig where
  baseURL : String
  timeout : Nat
  deriving Repr, DecidableEq

/-- `apiClient`'s configuration: base URL and the 15-second timeout. -/
def apiClientConfig : AxiosConfig :=
  { baseURL := "http://localhost:8000", timeout := 15000 }

/-- `error.response.data` fields consulted by the response
interceptor. -/
structure ErrResponseData where
  detail : Option String
  message : Option String
  deriving Repr, DecidableEq

/-- `error.response` as consulted by the response interceptor. -/
structure ErrResponse where
  status : Nat
  data : ErrResponseData
  deriving Repr, DecidableEq

/-- The axios error object: `response` is set when the server answered,
`request` when a request went out but no response came back, and
`message` carries the setup error otherwise. -/
structure AxiosError where
  response : Option ErrResponse
  request : Option Unit
  message : Option String
  deriving Repr, DecidableEq

/-- The fixed connectivity message thrown when no response was
received. -/
def cannotConnectMessage : String :=
  "Cannot connect to server. Please check your internet connection and ensure the backend is running."

/-- The message computed by the response interceptor from a server
response alone (`utils/api.js`): `data?.detail || data?.message ||
'HTTP error! status: …'`, then the status-specific rewrites. -/
def serverErrorMessage (r : ErrResponse) : String :=
  let fromDetail : Option String := match r.data.detail with
    | some d => if d = "" then none else some d
    | none => none
  let fromEither : Option String := match fromDetail with
    | some d => some d
    | none => match r.data.message with
      | some m => if m = "" then none else some m
      | none => none
  let message := fromEither.getD ("HTTP error! status: " ++ toString r.status)
  if r.status = 400 then
    if jsIncludes message "already cancelled" || jsIncludes message "cancelled" then
      "Booking already cancelled"
    else if jsIncludes message "not found" then "Booking not found"
    else if jsIncludes message "cannot be cancelled" then
      "Booking cannot be cancelled at this time"
    else if jsIncludes message "Invalid credentials" then "Invalid credentials"
    else if jsIncludes message "Please provide" then
      "Please provide email, Falcon Flyer number, or username"
    else message
  else if r.status = 404 then "Booking not found"
  else if r.status = 403 then "Not authorized to perform this action"
  else message

/-- The error branch of the response interceptor (`utils/api.js`): the
message of the `Error` it throws.  Transcribed monolithically: server
branch, then the no-response branch with its fixed connectivity message,
then the setup-error fallback (`error.message ||
'An unexpected error occurred'`). -/
def responseInterceptorError (e : AxiosError) : String :=
  match e.response with
  | some r =>
      let fromDetail : Option String := match r.data.detail with
        | some d => if d = "" then none else some d
        | none => none
      let fromEither : Option String := match fromDetail with
        | some d => some d
        | none => match r.data.message with
          | some m => if m = "" then none else some m
          | none => none
      let message := fromEither.getD ("HTTP error! status: " ++ toString r.status)
      if r.status = 400 then
        if jsIncludes message "already cancelled" || jsIncludes message "cancelled" then
          "Booking already cancelled"
        else if jsIncludes message "not found" then "Booking not found"
        else if jsIncludes message "cannot be cancelled" then
          "Booking cannot be cancelled at this time"
        else if jsIncludes message "Invalid credentials" then "Invalid credentials"
        else if jsIncludes message "Please provide" then
          "Please provide email, Falcon Flyer number, or username"
        else message
      else if r.status = 404 then "Booking not found"
      else if r.status = 403 then "Not authorized to perform this action"
      else message
  | none =>
      match e.request with
      | some _ => cannotConnectMessage
      | none =>
          match e.message with
          | some m => if m = "" then "An unexpected error occurred" else m
          | none => "An unexpected error occurred"

/-! ## Auth token lifecycle (`utils/api.js`, `app/login.jsx`,
`app/menu.jsx`) -/

/-- `getAuthToken` from `utils/api.js`: `global.authToken || null` —
a stored empty string is falsy and reads back as `null`. -/
def getAuthToken (g : Option String) : Option String :=
  match g with
  | none => none
  | some t => if t = "" then none else some t

/-- `setAuthToken` from `utils/api.js`: overwrite the process-wide
variable. -/
def setAuthToken (token : String) : Option String → Option String :=
  fun _ => some token

/-- `clearAuthToken` from `utils/api.js`: `global.authToken = null`. -/
def clearAuthToken : Option String → Option String :=
  fun _ => none

/-- The token write performed by `handleLogin` in `app/login.jsx`:
`if (response.token) await setAuthToken(response.token)` — the store
happens only when the login response carries a truthy token. -/
def handleLoginTokenUpdate (g : Option String) (responseToken : Option String) : Option String :=
  match responseToken with
  | some t => if t = "" then g else setAuthToken t g
  | none => g

/-- `handleLogout` from `app/menu.jsx`: best-effort backend call, then
`clearAuthToken`. -/
def handleLogout (g : Option String) : Option String :=
  clearAuthToken g

/-- The request interceptor of `utils/api.js`: read the token and attach
`Authorization: Bearer <token>` exactly when one is present. -/
def requestAuthHeader (g : Option String) : Option String :=
  match getAuthToken g with
  | some t => some ("Bearer " ++ t)
  | none => none

/-- The client operations grouped by their effect on the process-wide
token.  Source audit: `setAuthToken` is called only from
`app/login.jsx` line 83 and `clearAuthToken` only from `app/menu.jsx`
line 80; no other file assigns `global.authToken`, so every remaining
operation (requests through the interceptor, booking, check-in,
reschedule, cancel, display) leaves it unchanged. -/
inductive ApiEvent where
  | loginSuccess (responseToken : Option String)
  | logout
  | request
  | otherOp
  deriving Repr, DecidableEq

/-- Effect of one client operation on the stored token. -/
def tokenStep (g : Option String) : ApiEvent → Option String
  | ApiEvent.loginSuccess t => handleLoginTokenUpdate g t
  | ApiEvent.logout => handleLogout g
  | ApiEvent.request => g
  | ApiEvent.otherOp => g

/-! ## Theorems -/

/-- C2: evaluation at a failing input.  A reschedule confirmation with a
selected new flight, seat class `business` and seat `12A` sends a body
holding only `new_flight_id` — the requested `seat_class` and
`seat_number` are absent from the HTTP request, contrary to the claim. -/
theorem rescheduleRequestDropsSeatSelection :
    handleRescheduleBooking
      { id := 7, booking_reference := "GF123", booking_status := "confirmed",
        seat_class := "economy", seat_number := "10C", passenger_name := "Alia",
        total_price := 120, flight := none }
      (some { id := 42, flight_number := "GF070", departure_airport := "BAH",
              arrival_airport := "LHR", departure_time := none })
      (some "business") (some "12A") =
    some { url := "/api/bookings/7/reschedule",
           body := { new_flight_id := 42, seat_class := none, seat_number := none } } := by
  rfl

/-- C3: evaluation at a failing input.  For a successful check-in
response whose body carries `loyalty_rewards` and `tier_upgrade` at the
top level (as the interceptor delivers it), `handleCheckIn` shows the
generic `'Check-in completed successfully!'` alert, because it looks for
the rewards under a nested `data` key that the unwrapped body does not
have — contrary to the claim (and to the repository's own README). -/
theorem checkinRewardsBranchUnreachable :
    handleCheckIn
      { loyalty_rewards := some
          { miles_earned := 100, points_earned := 50, flight_distance := 1000,
            seat_class := "economy", loyalty_tier := "BLUE",
            total_miles := 1100, total_points := 550 },
        tier_upgrade := some
          { upgraded := false, old_tier := "BLUE", new_tier := "BLUE",
            next_tier_threshold := some 1000 },
        data := none } =
      { title := "Success", message := "Check-in completed successfully!" } := by
  rfl

/-- C4: the cancel screen sends the DELETE request iff the loaded
booking's status is not `cancelled`; an already-cancelled booking (known
client-side, or reported by the server) always produces the
already-cancelled report, never the success alert. -/
theorem cancelIdempotentFailureReport (bookingStatus : String) (server : Except String Unit) :
    ((handleCancelBooking bookingStatus server).requestSent = true ↔
      bookingStatus ≠ "cancelled") ∧
    (bookingStatus = "cancelled" →
      handleCancelBooking bookingStatus server =
        ⟨false, "Already Cancelled", "This booking has already been cancelled."⟩) ∧
    (∀ msg, server = Except.error msg → jsIncludes msg "already cancelled" = true →
      (handleCancelBooking bookingStatus server).alertTitle = "Already Cancelled" ∧
      (handleCancelBooking bookingStatus server).alertMessage =
        "This booking has already been cancelled.") ∧
    ((handleCancelBooking bookingStatus server).alertTitle = "Booking Cancelled" →
      bookingStatus ≠ "cancelled" ∧ ∃ u, server = Except.ok u) := by
  unfold handleCancelBooking
  by_cases hc : bookingStatus = "cancelled"
  · simp [hc]
  · simp only [if_neg hc]
    refine ⟨?_, by simp [hc], ?_, ?_⟩
    · cases server with
      | ok u => simp [hc]
      | error msg => dsimp only; split_ifs <;> simp [hc]
    · intro msg hmsg hinc
      subst hmsg
      simp [hinc]
    · intro habs
      refine ⟨hc, ?_⟩
      cases server with
      | ok u => exact ⟨u, rfl⟩
      | error msg =>
          exfalso
          revert habs
          dsimp only
          split_ifs <;> simp

/-- C4 witness: both already-cancelled paths at concrete inputs. -/
theorem cancelIdempotentFailureReport_witness :
    (handleCancelBooking "cancelled" (Except.ok ()) =
      ⟨false, "Already Cancelled", "This booking has already been cancelled."⟩) ∧
    ((handleCancelBooking "confirmed" (Except.error "Booking already cancelled")).alertTitle =
      "Already Cancelled") := by
  refine ⟨(cancelIdempotentFailureReport "cancelled" (Except.ok ())).2.1 rfl, ?_⟩
  exact ((cancelIdempotentFailureReport "confirmed"
    (Except.error "Booking already cancelled")).2.2.1 "Booking already cancelled" rfl
    (by decide)).1

/-- C5: the My Trips screen displays, from the full booking list
received from the API, exactly the non-cancelled bookings, each
transformed element-wise and in the original order; every displayed card
is non-cancelled, and every `confirmed` or `checked_in` booking of the
list is displayed. -/
theorem myTripsDisplaysExactlyActiveBookings (nowMs : Int) (userBookings : List Booking) :
    loadUserBookings nowMs userBookings = activeDisplaySpec nowMs userBookings ∧
    (∀ t ∈ loadUserBookings nowMs userBookings, t.bookingStatus ≠ "cancelled") ∧
    (∀ b ∈ userBookings,
      b.booking_status = "confirmed" ∨ b.booking_status = "checked_in" →
      transformBooking nowMs b ∈ loadUserBookings nowMs userBookings) := by
  refine ⟨?_, ?_, ?_⟩
  · induction userBookings with
    | nil => rfl
    | cons b t ih =>
        by_cases hb : b.booking_status = "cancelled" <;>
          simp only [loadUserBookings, List.filter_cons] at ih ⊢ <;>
          simp [activeDisplaySpec, hb, bne_iff_ne, ih]
  · intro t ht
    simp only [loadUserBookings, List.mem_map, List.mem_filter] at ht
    obtain ⟨b, ⟨_, hb⟩, rfl⟩ := ht
    simpa [transformBooking, bne_iff_ne] using hb
  · intro b hb hstat
    simp only [loadUserBookings, List.mem_map]
    refine ⟨b, ?_, rfl⟩
    simp only [List.mem_filter]
    refine ⟨hb, ?_⟩
    rcases hstat with h | h <;> simp [h]

/-- C5 witness: a concrete two-booking list with one cancelled
booking. -/
theorem myTripsDisplaysExactlyActiveBookings_witness :
    (∀ t ∈ loadUserBookings 0
        [{ id := 1, booking_reference := "A", booking_status := "confirmed",
           seat_class := "economy", seat_number := "1A", passenger_name := "P",
           total_price := 10, flight := none },
         { id := 2, booking_reference := "B", booking_status := "cancelled",
           seat_class := "economy", seat_number := "2A", passenger_name := "Q",
           total_price := 20, flight := none }], t.bookingStatus ≠ "cancelled") ∧
    transformBooking 0
        { id := 1, booking_reference := "A", booking_status := "confirmed",
          seat_class := "economy", seat_number := "1A", passenger_name := "P",
          total_price := 10, flight := none } ∈
      loadUserBookings 0
        [{ id := 1, booking_reference := "A", booking_status := "confirmed",
           seat_class := "economy", seat_number := "1A", passenger_name := "P",
           total_price := 10, flight := none },
         { id := 2, booking_reference := "B", booking_status := "cancelled",
           seat_class := "economy", seat_number := "2A", passenger_name := "Q",
           total_price := 20, flight := none }] := by
  refine ⟨(myTripsDisplaysExactlyActiveBookings 0 _).2.1, ?_⟩
  exact (myTripsDisplaysExactlyActiveBookings 0 _).2.2 _ (by simp) (Or.inl rfl)

/-- C7: the confirm-booking button calls `createBooking` if and only if
the trimmed passenger name, email and passport number are nonempty, a
(truthy) seat is selected, and the email matches the regular expression;
and every invocation with an auth token present produces the POST to
`/api/bookings`. -/
theorem bookingValidationGatesRequest (passengerName passengerEmail passportNumber : String)
    (selectedSeat : Option String) :
    ((confirmBookingPress passengerName passengerEmail passportNumber selectedSeat).isSome = true ↔
      (jsTrim passengerName ≠ "" ∧ jsTrim passengerEmail ≠ "" ∧ jsTrim passportNumber ≠ "" ∧
       (∃ s, selectedSeat = some s ∧ s ≠ "") ∧ emailRegexTest passengerEmail = true)) ∧
    (∀ d, confirmBookingPress passengerName passengerEmail passportNumber selectedSeat = some d →
      ∀ (t sc : String) (fl : FlightUI), t ≠ "" →
        ∃ req, createBooking (some t) sc fl d = some req ∧ req.url = "/api/bookings") := by
  constructor
  · rcases selectedSeat with _ | seat <;>
      · unfold confirmBookingPress
        split_ifs <;> simp_all
  · intro d _ t sc fl ht
    unfold createBooking
    dsimp only
    rw [if_neg ht]
    exact ⟨_, rfl, rfl⟩

/-- C7 witness: a fully valid form at a concrete input produces the
booking request. -/
theorem bookingValidationGatesRequest_witness :
    confirmBookingPress "Alia" "a@b.c" "P123" (some "1A") =
      some ⟨"Alia", "a@b.c", "P123", "1A"⟩ ∧
    (∃ req,
      createBooking (some "tok") "economy" ⟨1, 100, 200⟩ ⟨"Alia", "a@b.c", "P123", "1A"⟩ =
        some req ∧ req.url = "/api/bookings") := by
  refine ⟨by decide, ?_⟩
  exact (bookingValidationGatesRequest "Alia" "a@b.c" "P123" (some "1A")).2
    ⟨"Alia", "a@b.c", "P123", "1A"⟩ (by decide) "tok" "economy" ⟨1, 100, 200⟩ (by decide)

/-- C8: the shared axios client is configured with a 15000 ms timeout;
an error with no response but an outgoing request yields the fixed
cannot-connect message, while an error with a server response yields a
message that is a function of that response (its detail / message fields
and HTTP status) alone. -/
theorem apiClientTimeoutAndErrorDistinction :
    apiClientConfig.timeout = 15000 ∧
    (∀ e : AxiosError, e.response = none → e.request = some () →
      responseInterceptorError e = cannotConnectMessage) ∧
    (∀ (e : AxiosError) (r : ErrResponse), e.response = some r →
      responseInterceptorError e = serverErrorMessage r) := by
  refine ⟨rfl, ?_, ?_⟩
  · intro e h1 h2
    rcases e with ⟨resp, req, msgf⟩
    dsimp only at h1 h2
    subst h1
    subst h2
    rfl
  · intro e r h
    rcases e with ⟨resp, req, msgf⟩
    dsimp only at h
    subst h
    rfl

/-- C8 witness: a connectivity failure and a server failure at concrete
inputs. -/
theorem apiClientTimeoutAndErrorDistinction_witness :
    responseInterceptorError ⟨none, some (), none⟩ = cannotConnectMessage ∧
    responseInterceptorError ⟨some ⟨500, ⟨some "boom", none⟩⟩, none, none⟩ =
      serverErrorMessage ⟨500, ⟨some "boom", none⟩⟩ :=
  ⟨apiClientTimeoutAndErrorDistinction.2.1 ⟨none, some (), none⟩ rfl rfl,
   apiClientTimeoutAndErrorDistinction.2.2 ⟨some ⟨500, ⟨some "boom", none⟩⟩, none, none⟩
     ⟨500, ⟨some "boom", none⟩⟩ rfl⟩

/-- C9: the process-wide token lifecycle — set to the server token on a
successful login carrying one, unchanged when the login response has no
token, cleared on logout, untouched by every other operation, and read
by the request interceptor, which attaches `Authorization: Bearer
<token>` exactly when the stored token reads back non-null. -/
theorem authTokenLifecycle (g : Option String) :
    (∀ t : String, t ≠ "" → tokenStep g (ApiEvent.loginSuccess (some t)) = some t) ∧
    (tokenStep g (ApiEvent.loginSuccess none) = g) ∧
    (tokenStep g ApiEvent.logout = none) ∧
    (tokenStep g ApiEvent.request = g) ∧
    (tokenStep g ApiEvent.otherOp = g) ∧
    (requestAuthHeader g = (getAuthToken g).map (fun t => "Bearer " ++ t)) ∧
    ((requestAuthHeader g).isSome = (getAuthToken g).isSome) := by
  refine ⟨?_, rfl, rfl, rfl, rfl, ?_, ?_⟩
  · intro t ht
    simp [tokenStep, handleLoginTokenUpdate, setAuthToken, ht]
  · rcases hg : getAuthToken g with _ | t <;> simp [requestAuthHeader, hg]
  · rcases hg : getAuthToken g with _ | t <;> simp [requestAuthHeader, hg]

/-- C9 witness: a successful login stores the concrete token. -/
theorem authTokenLifecycle_witness :
    tokenStep (some "abc") (ApiEvent.loginSuccess (some "tok")) = some "tok" :=
  (authTokenLifecycle (some "abc")).1 "tok" (by decide)

/-- `hoursUntilDeparture` is positive exactly when the millisecond
difference is. -/
theorem hoursUntilDeparture_pos_iff (nowMs depMs : Int) :
    0 < hoursUntilDeparture nowMs depMs ↔ 0 < depMs - nowMs := by
  unfold hoursUntilDeparture
  rw [lt_div_iff₀ (by norm_num : (0 : ℚ) < 3600000), zero_mul, Int.cast_pos]

/-- `hoursUntilDeparture ≤ 24` exactly when the millisecond difference
is at most 24 hours of milliseconds. -/
theorem hoursUntilDeparture_le24_iff (nowMs depMs : Int) :
    hoursUntilDeparture nowMs depMs ≤ 24 ↔ depMs - nowMs ≤ 24 * 3600000 := by
  unfold hoursUntilDeparture
  rw [div_le_iff₀ (by norm_num : (0 : ℚ) < 3600000)]
  constructor
  · intro h
    exact_mod_cast h
  · intro h
    exact_mod_cast h

/-- C1: `canCheckIn` returns true iff the booking status is `confirmed`
and the departure (parsed after sub-millisecond normalization) lies
strictly in the future by at most 24 hours — exactly 24.0 hours is
allowed, anything above is not, zero or negative is not. -/
theorem canCheckInWindow (nowMs : Int) (s bookingStatus : String) (dt : JSDate)
    (hparse : jsParseDate (normalizeSubMsCanCheckIn s).data = some dt) :
    canCheckIn nowMs (some s) bookingStatus = true ↔
      (bookingStatus = "confirmed" ∧
       0 < hoursUntilDeparture nowMs (epochMs dt) ∧
       hoursUntilDeparture nowMs (epochMs dt) ≤ 24) := by
  unfold canCheckIn
  by_cases hst : bookingStatus = "confirmed"
  · rw [if_neg (not_not_intro hst)]
    dsimp only
    rw [hparse]
    dsimp only
    rw [decide_eq_true_iff, hoursUntilDeparture_pos_iff, hoursUntilDeparture_le24_iff]
    constructor
    · rintro ⟨h1, h2⟩
      exact ⟨hst, h2, h1⟩
    · rintro ⟨_, h2, h1⟩
      exact ⟨h1, h2⟩
  · rw [if_pos hst]
    simp [hst]

/-- C1 witness: at the 24.0-hour boundary with a `confirmed` booking,
check-in is allowed. -/
theorem canCheckInWindow_witness :
    canCheckIn 0 (some "1970-01-02T00:00:00Z") "confirmed" = true := by
  have he : epochMs ⟨1970, 1, 2, 0, 0, 0, 0, some 0⟩ = 86400000 := by decide
  refine (canCheckInWindow 0 "1970-01-02T00:00:00Z" "confirmed"
    ⟨1970, 1, 2, 0, 0, 0, 0, some 0⟩ (by decide)).mpr ⟨rfl, ?_, ?_⟩
  · rw [he, hoursUntilDeparture_pos_iff]
    norm_num
  · rw [he, hoursUntilDeparture_le24_iff]
    norm_num

/-- No string starting with `Check-in opens in ` is the availability
message. -/
theorem checkInOpensNeNow (x : String) :
    ("Check-in opens in " ++ x) ≠ "You can check-in now!" := by
  intro h
  have h2 : ("Check-in opens in " ++ x).data = ("You can check-in now!").data :=
    congrArg String.data h
  rw [String.data_append] at h2
  have h3 : (("Check-in opens in ").data ++ x.data).headD ' ' = 'C' := rfl
  rw [h2] at h3
  exact absurd h3 (by decide)

/-- C10 counterexample: the claim quantifies over every booking status
and departure time, but for the status `pending` (outside the handled
set) inside the window, and for a `confirmed` booking with an unparsable
departure, the button is disabled while the message still reads
`You can check-in now!`. -/
theorem checkInButtonMessageDisagreement :
    canCheckIn 0 (some "1970-01-01T12:00:00Z") "pending" = false ∧
    getCheckInMessage 0 (some "1970-01-01T12:00:00Z") "pending" = "You can check-in now!" ∧
    canCheckIn 0 (some "not-a-date") "confirmed" = false ∧
    getCheckInMessage 0 (some "not-a-date") "confirmed" = "You can check-in now!" := by
  decide

/-- C10 amended: for the statuses the screen actually receives
(`confirmed`, `checked_in`, `cancelled`) and a departure time that
parses after normalization, the check-in button is enabled exactly when
the message reads `You can check-in now!`. -/
theorem canCheckInMatchesMessage (nowMs : Int) (s bookingStatus : String) (dt : JSDate)
    (hstatus : bookingStatus = "confirmed" ∨ bookingStatus = "checked_in" ∨
      bookingStatus = "cancelled")
    (hparse : jsParseDate (normalizeSubMsCanCheckIn s).data = some dt) :
    canCheckIn nowMs (some s) bookingStatus = true ↔
      getCheckInMessage nowMs (some s) bookingStatus = "You can check-in now!" := by
  have hparse2 : jsParseDate (normalizeSubMsMessage s).data = some dt := hparse
  rcases hstatus with h | h | h <;> subst h
  · unfold canCheckIn getCheckInMessage
    rw [if_neg (not_not_intro rfl), if_neg (by decide : ¬("confirmed" : String) = "checked_in"),
      if_neg (by decide : ¬("confirmed" : String) = "cancelled")]
    dsimp only
    rw [hparse, hparse2]
    dsimp only
    by_cases h1 : epochMs dt - nowMs ≤ 0
    · rw [if_pos h1]
      constructor
      · intro hL
        obtain ⟨_, hpos⟩ := of_decide_eq_true hL
        exact absurd h1 (not_le.mpr hpos)
      · intro hR
        exact absurd hR (by decide)
    · by_cases h2 : 24 * 3600000 < epochMs dt - nowMs
      · rw [if_neg h1, if_pos h2]
        constructor
        · intro hL
          obtain ⟨hle, _⟩ := of_decide_eq_true hL
          exact absurd h2 (not_lt.mpr hle)
        · intro hR
          exfalso
          revert hR
          split_ifs <;> exact fun hR => checkInOpensNeNow _ hR
      · rw [if_neg h1, if_neg h2]
        simp only [decide_eq_true_iff]
        constructor
        · intro _
          trivial
        · intro _
          exact ⟨not_lt.mp h2, not_le.mp h1⟩
  · unfold canCheckIn getCheckInMessage
    rw [if_pos (by decide : ("checked_in" : String) ≠ "confirmed"), if_pos rfl]
    simp
  · unfold canCheckIn getCheckInMessage
    rw [if_pos (by decide : ("cancelled" : String) ≠ "confirmed"),
      if_neg (by decide : ¬("cancelled" : String) = "checked_in"), if_pos rfl]
    simp

/-- C10 amended witness: a `confirmed` booking inside the window at a
concrete instant. -/
theorem canCheckInMatchesMessage_witness :
    getCheckInMessage 0 (some "1970-01-01T12:00:00Z") "confirmed" = "You can check-in now!" := by
  refine (canCheckInMatchesMessage 0 "1970-01-01T12:00:00Z" "confirmed"
    ⟨1970, 1, 1, 12, 0, 0, 0, some 0⟩ (Or.inl rfl) (by decide)).mp (by decide)

/-- `takeWhile isDigit` of an all-digit run followed by a non-digit
stops exactly at the run. -/
theorem takeWhileDigitsStop (D : List Char) (hD : ∀ c ∈ D, c.isDigit = true)
    (c : Char) (hc : c.isDigit = false) (t : List Char) :
    (D ++ c :: t).takeWhile Char.isDigit = D := by
  induction D with
  | nil => simp [List.takeWhile_cons, hc]
  | cons a l ih =>
      have ha : a.isDigit = true := hD a (List.mem_cons_self a l)
      simp [List.takeWhile_cons, ha, ih (fun x hx => hD x (List.mem_cons_of_mem a hx))]

/-- `getD` at the length of the left factor of an append reads the head
of the right factor. -/
theorem getDAppendLen (D : List Char) (c x : Char) (t : List Char) :
    (D ++ c :: t).getD D.length x = c := by
  induction D with
  | nil => rfl
  | cons a l ih => simpa using ih

/-- The sub-millisecond truncation on a reversed list that starts with at
least four digits followed by a dot: drop down to three digits. -/
theorem revSubMsTruncLong (R t : List Char) (hR : ∀ c ∈ R, c.isDigit = true)
    (hlen : 4 ≤ R.length) :
    revSubMsTrunc (R ++ '.' :: t) = R.drop (R.length - 3) ++ '.' :: t := by
  unfold revSubMsTrunc
  rw [takeWhileDigitsStop R hR '.' (by decide) t]
  rw [if_pos ⟨hlen, getDAppendLen R '.' 'x' t⟩]
  exact List.drop_append_of_le_length (by omega)

/-- The sub-millisecond truncation on a reversed list whose leading digit
run is shorter than four: unchanged. -/
theorem revSubMsTruncShort (R t : List Char) (hR : ∀ c ∈ R, c.isDigit = true)
    (hlen : R.length < 4) (c : Char) (hc : c.isDigit = false) :
    revSubMsTrunc (R ++ c :: t) = R ++ c :: t := by
  unfold revSubMsTrunc
  rw [takeWhileDigitsStop R hR c hc t]
  rw [if_neg (fun h => absurd hlen (not_lt.mpr h.1))]

/-- Normalization truncates a trailing fractional run of at least four
digits down to three. -/
theorem normalizeSubMsTruncates (pre D : List Char) (hD : ∀ c ∈ D, c.isDigit = true)
    (h4 : 4 ≤ D.length) :
    normalizeSubMsFormatDate (String.mk (pre ++ '.' :: D)) =
      String.mk (pre ++ '.' :: D.take 3) := by
  unfold normalizeSubMsFormatDate
  have hrev : (String.mk (pre ++ '.' :: D)).data.reverse =
      D.reverse ++ '.' :: pre.reverse := by
    show (pre ++ '.' :: D).reverse = D.reverse ++ '.' :: pre.reverse
    simp
  rw [hrev]
  rw [revSubMsTruncLong D.reverse pre.reverse
    (fun c hc => hD c (List.mem_reverse.mp hc)) (by simpa using h4)]
  have hdrop : D.reverse.drop (D.reverse.length - 3) = (D.take 3).reverse := by
    rw [List.length_reverse]
    exact (List.reverse_take).symm
  rw [hdrop]
  show String.mk ((D.take 3).reverse ++ '.' :: pre.reverse).reverse = _
  simp

/-- Normalization leaves a trailing fractional run of exactly three
digits unchanged. -/
theorem normalizeSubMsFixesShort (pre D : List Char) (hD : ∀ c ∈ D, c.isDigit = true)
    (h3 : D.length < 4) :
    normalizeSubMsFormatDate (String.mk (pre ++ '.' :: D)) =
      String.mk (pre ++ '.' :: D) := by
  unfold normalizeSubMsFormatDate
  have hrev : (String.mk (pre ++ '.' :: D)).data.reverse =
      D.reverse ++ '.' :: pre.reverse := by
    show (pre ++ '.' :: D).reverse = D.reverse ++ '.' :: pre.reverse
    simp
  rw [hrev]
  rw [revSubMsTruncShort D.reverse pre.reverse
    (fun c hc => hD c (List.mem_reverse.mp hc)) (by simpa using h3) '.' (by decide)]
  show String.mk (D.reverse ++ '.' :: pre.reverse).reverse = _
  simp

/-- Strings built from a nonempty character list are nonempty. -/
theorem mkConsNeEmpty (pre : List Char) (c : Char) (t : List Char) :
    String.mk (pre ++ c :: t) ≠ "" := by
  intro h
  have h2 := congrArg (fun s : String => s.data.length) h
  simp at h2

/-- Every `digitChar` is a digit character. -/
theorem digitCharIsDigit (n : Nat) : (digitChar n).isDigit = true := by
  unfold digitChar
  have h10 : n % 10 < 10 := Nat.mod_lt _ (by norm_num)
  set k := n % 10 with hk
  interval_cases k <;> decide

/-- `charDigitVal` inverts `digitChar`. -/
theorem charDigitValDigitChar (n : Nat) : charDigitVal (digitChar n) = n % 10 := by
  unfold digitChar charDigitVal
  have h10 : n % 10 < 10 := Nat.mod_lt _ (by norm_num)
  set k := n % 10 with hk
  interval_cases k <;> decide

/-- C6 counterexample: for a timestamp whose sub-millisecond fractional
seconds are followed by a timezone designator, the normalization regex
(anchored at end of string) does not fire, the string falls outside the
guaranteed parse grammar, and `formatDate` renders `N/A` — unlike the
same timestamp truncated to millisecond precision. -/
theorem formatDateSubMsCounterexample :
    formatDate (some "2025-09-24T10:30:00.123456Z") = "N/A" ∧
    formatDate (some "2025-09-24T10:30:00.123Z") = "24 SEP" ∧
    formatDate (some "2025-09-24T10:30:00.123456Z") ≠
      formatDate (some "2025-09-24T10:30:00.123Z") := by
  decide

/-- Normalization leaves a date-only `YYYY-MM-DD` string unchanged: its
trailing digit run has length two and is preceded by `-`, not `.`. -/
theorem normalizeDateOnly (y m d : Nat) :
    normalizeSubMsFormatDate (dateOnlyString y m d) = dateOnlyString y m d := by
  unfold normalizeSubMsFormatDate
  have hrev : (dateOnlyString y m d).data.reverse =
      [digitChar d, digitChar (d / 10)] ++ '-' ::
        [digitChar m, digitChar (m / 10), '-', digitChar y, digitChar (y / 10),
         digitChar (y / 100), digitChar (y / 1000)] := rfl
  rw [hrev]
  rw [revSubMsTruncShort [digitChar d, digitChar (d / 10)] _
    (by
      intro c hc
      simp only [List.mem_cons, List.not_mem_nil, or_false] at hc
      rcases hc with rfl | rfl <;> exact digitCharIsDigit _)
    (by norm_num) '-' (by decide)]
  rfl

/-- A date-only `YYYY-MM-DD` string passes the date-only shape test. -/
theorem shapeDateOnly (y m d : Nat) :
    isDateOnlyShape (dateOnlyString y m d).data = true := by
  show isDateOnlyShape [digitChar (y / 1000), digitChar (y / 100), digitChar (y / 10),
    digitChar y, '-', digitChar (m / 10), digitChar m, '-', digitChar (d / 10),
    digitChar d] = true
  simp [isDateOnlyShape, digitCharIsDigit]

/-- Parsing a valid date-only string widened to local noon yields its
calendar fields with no offset designator. -/
theorem parseDateOnlyNoon (y m d : Nat) (hy : y ≤ 9999) (hm1 : 1 ≤ m) (hm2 : m ≤ 12)
    (hd1 : 1 ≤ d) (hd2 : d ≤ daysInMonth y m) :
    jsParseDate ((dateOnlyString y m d) ++ "T12:00:00").data =
      some ⟨y, m, d, 12, 0, 0, 0, none⟩ := by
  have hdata : ((dateOnlyString y m d) ++ "T12:00:00").data =
      [digitChar (y / 1000), digitChar (y / 100), digitChar (y / 10), digitChar y,
       '-', digitChar (m / 10), digitChar m, '-', digitChar (d / 10), digitChar d,
       'T', '1', '2', ':', '0', '0', ':', '0', '0'] := by
    rw [String.data_append]
    rfl
  rw [hdata]
  simp only [jsParseDate]
  rw [if_pos ⟨digitCharIsDigit _, digitCharIsDigit _, digitCharIsDigit _, digitCharIsDigit _,
    digitCharIsDigit _, digitCharIsDigit _, digitCharIsDigit _, digitCharIsDigit _⟩]
  simp only [charDigitValDigitChar]
  have e1 : y / 10 / 10 = y / 100 := by rw [Nat.div_div_eq_div_mul]
  have e2 : y / 100 / 10 = y / 1000 := by rw [Nat.div_div_eq_div_mul]
  have e3 : y / 1000 / 10 = 0 := by
    rw [Nat.div_div_eq_div_mul]
    exact Nat.div_eq_of_lt (by omega)
  have hy2 : 1000 * (y / 1000 % 10) + 100 * (y / 100 % 10) + 10 * (y / 10 % 10) + y % 10 = y := by
    omega
  have hd31 : daysInMonth y m ≤ 31 := by
    unfold daysInMonth
    split_ifs <;> norm_num
  have hm3 : 10 * (m / 10 % 10) + m % 10 = m := by omega
  have hd3 : 10 * (d / 10 % 10) + d % 10 = d := by omega
  rw [hy2, hm3, hd3]
  rw [if_pos ⟨hm1, hm2, hd1, hd2⟩]
  rfl

/-- C6 amended: (1) for timestamps whose fractional-second digits run to
the end of the string (no trailing timezone designator) with more than
three of them, `formatDate` agrees with the millisecond-truncated
string; (2) every valid date-only `YYYY-MM-DD` string renders as
`day MONTH`, never `N/A`; (3) `canCheckIn` (and `getCheckInMessage`)
apply the same sub-millisecond truncation as `formatDate` before
parsing. -/
theorem formatDateNormalizationAmended :
    (∀ (pre D : List Char), (∀ c ∈ D, c.isDigit = true) → 4 ≤ D.length →
      formatDate (some (String.mk (pre ++ '.' :: D))) =
        formatDate (some (String.mk (pre ++ '.' :: D.take 3)))) ∧
    (∀ y m d : Nat, y ≤ 9999 → 1 ≤ m → m ≤ 12 → 1 ≤ d → d ≤ daysInMonth y m →
      formatDate (some (dateOnlyString y m d)) =
        toString d ++ " " ++ monthNames.getD (m - 1) "" ∧
      formatDate (some (dateOnlyString y m d)) ≠ "N/A") ∧
    (∀ s : String, normalizeSubMsCanCheckIn s = normalizeSubMsFormatDate s ∧
      normalizeSubMsMessage s = normalizeSubMsFormatDate s) := by
  refine ⟨?_, ?_, fun s => ⟨rfl, rfl⟩⟩
  · intro pre D hD h4
    have htake : ∀ c ∈ D.take 3, c.isDigit = true :=
      fun c hc => hD c (List.take_subset 3 D hc)
    have h1 := normalizeSubMsTruncates pre D hD h4
    have h2 := normalizeSubMsFixesShort pre (D.take 3) htake
      (by rw [List.length_take]; omega)
    have hne1 := mkConsNeEmpty pre '.' D
    have hne2 := mkConsNeEmpty pre '.' (D.take 3)
    simp only [formatDate]
    rw [if_neg hne1, if_neg hne2, h1, h2]
  · intro y m d hy hm1 hm2 hd1 hd2
    have hne : dateOnlyString y m d ≠ "" := mkConsNeEmpty [] _ _
    have heq : formatDate (some (dateOnlyString y m d)) =
        toString d ++ " " ++ monthNames.getD (m - 1) "" := by
      simp only [formatDate]
      rw [if_neg hne, normalizeDateOnly, if_pos (shapeDateOnly y m d),
        parseDateOnlyNoon y m d hy hm1 hm2 hd1 hd2]
      rfl
    refine ⟨heq, ?_⟩
    intro hNA
    rw [heq] at hNA
    have hml : (monthNames.getD (m - 1) "").length = 3 := by
      interval_cases m <;> rfl
    have hl := congrArg String.length hNA
    rw [String.length_append, String.length_append, hml,
      show (" " : String).length = 1 from rfl,
      show ("N/A" : String).length = 3 from rfl] at hl
    omega

/-- C6 amended witness: a six-digit fractional run at the end of a
concrete timestamp, and the concrete date-only string 2025-09-24. -/
theorem formatDateNormalizationAmended_witness :
    formatDate (some (String.mk ("2025-09-24T10:30:00".data ++ '.' ::
        ['1', '2', '3', '4', '5', '6']))) =
      formatDate (some (String.mk ("2025-09-24T10:30:00".data ++ '.' ::
        (['1', '2', '3', '4', '5', '6'].take 3)))) ∧
    formatDate (some (dateOnlyString 2025 9 24)) =
      toString 24 ++ " " ++ monthNames.getD 8 "" := by
  constructor
  · exact formatDateNormalizationAmended.1 ("2025-09-24T10:30:00".data)
      ['1', '2', '3', '4', '5', '6'] (by decide) (by decide)
  · exact (formatDateNormalizationAmended.2.1 2025 9 24 (by norm_num) (by norm_num)
      (by norm_num) (by norm_num) (by decide)).1

end GulfAir
